import Mathlib

/-!
Verification of the account-store and session-authentication flow of the
Data-Analyser repository (two revisions: `app.py` and
`app_final_google_sheets_secrets.py`).

The remote spreadsheet is modelled as an in-memory list of rows; each
operation of the source that touches the sheet becomes a pure function on
that list.  The bcrypt primitive is modelled as an ideal salted hash:
`hashpw` keeps the password and salt, `checkpw` compares passwords, which
captures exactly the algebra the source relies on
(`checkpw p (hashpw q s) = (p == q)`).
-/

/-- Idealized model of `bcrypt.hashpw`'s output: a salted hash.  The model
stores the hashed password so that `checkpw` can be defined; no operation
of the program inspects the fields other than through `checkpw`. -/
structure BcryptHash where
  pw : String
  salt : Nat
deriving DecidableEq, Repr

/-- Model of `bcrypt.hashpw(password.encode(), bcrypt.gensalt())`: the salt
is passed explicitly instead of drawn from a RNG. -/
def hashpw (password : String) (salt : Nat) : BcryptHash :=
  ⟨password, salt⟩

/-- Model of `bcrypt.checkpw(password.encode(), hashed)`. -/
def checkpw (password : String) (h : BcryptHash) : Bool :=
  password == h.pw

/-- One row of the `users` worksheet (columns: username, password), as one
record of `get_all_records()`. -/
structure UserRow where
  username : String
  password : BcryptHash
deriving DecidableEq, Repr

/-- The `users` worksheet: the rows below the header, top to bottom. -/
abbrev UserSheet := List UserRow

/-- The error raised by the sheets client on a failed remote read
(`gspread.exceptions.APIError`). -/
inductive ApiError
  | unavailable
deriving DecidableEq, Repr

/-- `get_users` (app_final_google_sheets_secrets.py:71-77), on the outcome
of the remote read `auth_sheet.get_all_records()`: the records on success,
`[]` after `st.error` on an `APIError`. -/
def get_users (r : Except ApiError UserSheet) : UserSheet :=
  match r with
  | .ok rows => rows
  | .error _ => []

/-- `get_users` paired with whether the `st.error` message was displayed,
to talk about what beyond the returned value distinguishes the failure
path (app_final_google_sheets_secrets.py:71-77). -/
def get_users_shown (r : Except ApiError UserSheet) : UserSheet × Bool :=
  match r with
  | .ok rows => (rows, false)
  | .error _ => ([], true)

/-- `find_user` (app_final_google_sheets_secrets.py:79-84): first row of
the users list whose `username` field matches, else `None`. -/
def find_user (users : UserSheet) (username : String) : Option UserRow :=
  users.find? (fun user => user.username == username)

/-- `add_user` (app_final_google_sheets_secrets.py:86-98): rejects a
falsy (empty-string) username or password with `ValueError`/`False` and no
append; otherwise hashes the password and appends one row, returning
`True`.  Returns the updated sheet and the boolean result. -/
def add_user (sheet : UserSheet) (username password : String) (salt : Nat) :
    UserSheet × Bool :=
  if username = "" ∨ password = "" then
    (sheet, false)
  else
    (sheet ++ [⟨username, hashpw password salt⟩], true)

/-- `authenticate` (app_final_google_sheets_secrets.py:100-104). -/
def authenticate (sheet : UserSheet) (username password : String) : Bool :=
  match find_user sheet username with
  | some user => checkpw password user.password
  | none => false

/-! Helper lemmas about `find_user`. -/

theorem find_user_nil (u : String) : find_user [] u = none := rfl

theorem find_user_cons (r : UserRow) (l : UserSheet) (u : String) :
    find_user (r :: l) u =
      if r.username == u then some r else find_user l u := by
  simp only [find_user, List.find?]
  cases h : r.username == u <;> simp [h]

theorem find_user_append_of_none (l₁ l₂ : UserSheet) (u : String)
    (h : find_user l₁ u = none) :
    find_user (l₁ ++ l₂) u = find_user l₂ u := by
  induction l₁ with
  | nil => simp
  | cons r l ih =>
    rw [List.cons_append, find_user_cons]
    rw [find_user_cons] at h
    by_cases hr : r.username == u
    · simp [hr] at h
    · simp only [hr, if_false] at h ⊢
      exact ih h

theorem find_user_username (l : UserSheet) (u : String) (r : UserRow)
    (h : find_user l u = some r) : r.username = u := by
  have := List.find?_some h
  exact eq_of_beq this

/-- C1: registering a fresh, non-empty username/password pair and then
authenticating with the same pair on the resulting sheet returns true. -/
theorem register_then_authenticate (sheet : UserSheet)
    (username password : String) (salt : Nat)
    (hu : username ≠ "") (hp : password ≠ "")
    (habs : find_user sheet username = none) :
    (add_user sheet username password salt).2 = true ∧
      authenticate (add_user sheet username password salt).1
        username password = true := by
  have hadd : add_user sheet username password salt =
      (sheet ++ [⟨username, hashpw password salt⟩], true) := by
    simp [add_user, hu, hp]
  refine ⟨by rw [hadd], ?_⟩
  rw [hadd]
  simp only [authenticate]
  rw [find_user_append_of_none _ _ _ habs, find_user_cons]
  simp [checkpw, hashpw]

theorem register_then_authenticate_witness :
    find_user [] "alice" = none ∧
      (add_user [] "alice" "wonderland" 0).2 = true ∧
      authenticate (add_user [] "alice" "wonderland" 0).1
        "alice" "wonderland" = true :=
  ⟨rfl, register_then_authenticate [] "alice" "wonderland" 0
    (by decide) (by decide) rfl⟩

/-- C2: authenticate returns false whenever the username has no record or
the supplied password does not verify against the stored hash. -/
theorem authenticate_false_on_mismatch (sheet : UserSheet)
    (username password : String)
    (h : find_user sheet username = none ∨
      ∃ r, find_user sheet username = some r ∧
        checkpw password r.password = false) :
    authenticate sheet username password = false := by
  unfold authenticate
  rcases h with h | ⟨r, hr, hc⟩
  · rw [h]
  · rw [hr]
    exact hc

theorem authenticate_false_on_mismatch_witness :
    authenticate [] "alice" "pw" = false :=
  authenticate_false_on_mismatch [] "alice" "pw" (Or.inl rfl)

/-- C3 counterexample: the username `" "` consists only of whitespace (so
it is empty after trimming leading and trailing whitespace), yet
`add_user` accepts it and appends a row: its check is Python truthiness of
the raw string, not of the trimmed string. -/
theorem add_user_accepts_whitespace :
    " ".data.all Char.isWhitespace = true ∧ " " ≠ "" ∧
      add_user [] " " "pw" 0 = ([⟨" ", hashpw "pw" 0⟩], true) := by
  refine ⟨by decide, by decide, by decide⟩

/-- C3 amended: `add_user` fails (and appends no row) exactly when the
username or the password is the empty string; no whitespace trimming is
applied, and otherwise it appends the one hashed row. -/
theorem add_user_empty_check_untrimmed (sheet : UserSheet)
    (username password : String) (salt : Nat) :
    (add_user sheet username password salt = (sheet, false) ↔
      username = "" ∨ password = "") ∧
    (username ≠ "" → password ≠ "" →
      add_user sheet username password salt =
        (sheet ++ [⟨username, hashpw password salt⟩], true)) := by
  constructor
  · unfold add_user
    by_cases h : username = "" ∨ password = "" <;> simp [h]
  · intro hu hp
    simp [add_user, hu, hp]

theorem add_user_empty_check_untrimmed_witness :
    add_user [] " " "pw" 0 = ([⟨" ", hashpw "pw" 0⟩], true) :=
  (add_user_empty_check_untrimmed [] " " "pw" 0).2 (by decide) (by decide)

/-- Outcome of the Signup handler
(app_final_google_sheets_secrets.py:238-245). -/
inductive SignupResult
  | success
  | alreadyExists
  | invalidInput
deriving DecidableEq, Repr

/-- The Signup handler (app_final_google_sheets_secrets.py:238-245):
`if find_user(new_username): error "Username already exists"` and
otherwise `elif add_user(new_username, new_password): success`; when
`add_user` returns `False` it has already displayed its own error. -/
def signup (sheet : UserSheet) (username password : String) (salt : Nat) :
    UserSheet × SignupResult :=
  match find_user sheet username with
  | some _ => (sheet, .alreadyExists)
  | none =>
    match add_user sheet username password salt with
    | (sheet2, true) => (sheet2, .success)
    | (sheet2, false) => (sheet2, .invalidInput)

/-- C4: signing up a username already present reports `AlreadyExists` and
leaves the sheet — the existing record's hash and every other record —
unchanged. -/
theorem signup_existing_unchanged (sheet : UserSheet)
    (username password : String) (salt : Nat) (r : UserRow)
    (h : find_user sheet username = some r) :
    signup sheet username password salt = (sheet, .alreadyExists) := by
  unfold signup
  rw [h]

theorem signup_existing_unchanged_witness :
    signup [⟨"bob", hashpw "x" 0⟩] "bob" "y" 1 =
      ([⟨"bob", hashpw "x" 0⟩], .alreadyExists) :=
  signup_existing_unchanged [⟨"bob", hashpw "x" 0⟩] "bob" "y" 1
    ⟨"bob", hashpw "x" 0⟩ rfl

/-- C5 counterexample: the value `get_users` hands its caller after a
failed remote read is identical to the value for a successful read of an
empty table — the failure is conflated with "zero accounts" in the
result. -/
theorem get_users_conflates_failure_with_empty :
    get_users (Except.error ApiError.unavailable) =
      get_users (Except.ok []) := rfl

/-- C5 amended: on a store-read failure `get_users` returns the empty
list, the same value a successful read of zero accounts returns; the two
cases differ only in the `st.error` message displayed on screen, not in
the result the caller receives. -/
theorem get_users_failure_returns_empty (e : ApiError) :
    get_users (Except.error e) = [] ∧
      get_users (Except.error e) = get_users (Except.ok []) ∧
      get_users_shown (Except.error e) = ([], true) ∧
      get_users_shown (Except.ok []) = ([], false) := by
  cases e
  exact ⟨rfl, rfl, rfl, rfl⟩

/-- Outcome of `reset_password` per the spec's operation signature. -/
inductive ResetResult
  | success
  | notFound
deriving DecidableEq, Repr

/-- Modelled from the spec: `reset_password(username, new_password) ->
success | NotFound` with the "read-all/rewrite-all pattern" of section
4.1 — no revision under src/ implements a password reset.  The whole
table is read; if the username is absent the result is `NotFound`;
otherwise the table is rewritten with the hash of every row for that
username replaced by a fresh hash of the new password. -/
def reset_password (sheet : UserSheet) (username new_password : String)
    (salt : Nat) : UserSheet × ResetResult :=
  match find_user sheet username with
  | none => (sheet, .notFound)
  | some _ =>
    (sheet.map (fun r =>
        if r.username == username then ⟨r.username, hashpw new_password salt⟩
        else r),
      .success)

theorem find_user_map_replace (l : UserSheet) (u : String) (h : BcryptHash)
    (r : UserRow) (hf : find_user l u = some r) :
    find_user (l.map (fun row =>
        if row.username == u then ⟨row.username, h⟩ else row)) u =
      some ⟨u, h⟩ := by
  induction l with
  | nil => simp [find_user] at hf
  | cons a l ih =>
    rw [find_user_cons] at hf
    rw [List.map_cons]
    by_cases ha : a.username == u
    · have hau : a.username = u := eq_of_beq ha
      rw [if_pos ha, find_user_cons]
      simp [hau]
    · rw [if_neg ha, find_user_cons, if_neg ha]
      rw [if_neg ha] at hf
      exact ih hf

/-- C6: resetting an existing account's password to a fresh one succeeds;
afterwards authenticating with the new password returns true and
authenticating with the old password returns false. -/
theorem reset_password_then_authenticate (sheet : UserSheet)
    (username old_pw new_pw : String) (salt : Nat) (r : UserRow)
    (hf : find_user sheet username = some r)
    (_hold : checkpw old_pw r.password = true)
    (hne : old_pw ≠ new_pw) :
    (reset_password sheet username new_pw salt).2 = .success ∧
      authenticate (reset_password sheet username new_pw salt).1
        username new_pw = true ∧
      authenticate (reset_password sheet username new_pw salt).1
        username old_pw = false := by
  have hrw : reset_password sheet username new_pw salt =
      (sheet.map (fun row =>
          if row.username == username then
            ⟨row.username, hashpw new_pw salt⟩
          else row),
        .success) := by
    unfold reset_password
    rw [hf]
  rw [hrw]
  refine ⟨rfl, ?_, ?_⟩
  · simp only [authenticate]
    rw [find_user_map_replace sheet username (hashpw new_pw salt) r hf]
    simp [checkpw, hashpw]
  · simp only [authenticate]
    rw [find_user_map_replace sheet username (hashpw new_pw salt) r hf]
    simp [checkpw, hashpw]
    exact hne

theorem reset_password_then_authenticate_witness :
    (reset_password [⟨"alice", hashpw "wonderland" 0⟩] "alice" "newpw" 1).2
        = .success ∧
      authenticate
        (reset_password [⟨"alice", hashpw "wonderland" 0⟩] "alice"
          "newpw" 1).1 "alice" "newpw" = true ∧
      authenticate
        (reset_password [⟨"alice", hashpw "wonderland" 0⟩] "alice"
          "newpw" 1).1 "alice" "wonderland" = false :=
  reset_password_then_authenticate [⟨"alice", hashpw "wonderland" 0⟩]
    "alice" "wonderland" "newpw" 1 ⟨"alice", hashpw "wonderland" 0⟩
    rfl (by decide) (by decide)

/-- The `users` dictionary of app.py: username → stored hash, unique
keys (`json.load` of users.json). -/
abbrev UsersDict := List (String × BcryptHash)

/-- `verify_user` (app.py:66-70): `if username in users:
bcrypt.checkpw(password, users[username])`, else `False`. -/
def verify_user (users : UsersDict) (username password : String) : Bool :=
  match users.lookup username with
  | some hashed => checkpw password hashed
  | none => false

/-- The choices the Delete-a-User select box offers (app.py:145):
`[u for u in users if u != "admin"]`. -/
def user_list (users : UsersDict) : UsersDict :=
  users.filter (fun p => p.1 != "admin")

/-- Effect of the Delete-a-User handler (app.py:144-152) for a target
username `u`: the handler can only delete a user offered by the select
box (present and not `"admin"`), and then performs `del users[u]`;
otherwise the dictionary is unchanged and nothing is reported deleted. -/
def delete_user (users : UsersDict) (u : String) : UsersDict × Bool :=
  if u ∈ (user_list users).map Prod.fst ∧ (users.lookup u).isSome then
    (users.filter (fun p => p.1 != u), true)
  else
    (users, false)

/-- C7: deleting `"admin"` is a no-op returning false — the admin record
stays in the store and the admin credentials still authenticate. -/
theorem delete_admin_noop (users : UsersDict) (pw : String)
    (h : BcryptHash)
    (hadm : users.lookup "admin" = some h)
    (hpw : checkpw pw h = true) :
    delete_user users "admin" = (users, false) ∧
      (delete_user users "admin").1.lookup "admin" = some h ∧
      verify_user (delete_user users "admin").1 "admin" pw = true := by
  have hmem : "admin" ∉ (user_list users).map Prod.fst := by
    intro hc
    rcases List.mem_map.mp hc with ⟨p, hp, hfst⟩
    have := (List.mem_filter.mp hp).2
    rw [hfst] at this
    simp at this
  have hnoop : delete_user users "admin" = (users, false) := by
    unfold delete_user
    rw [if_neg]
    intro hc
    exact hmem hc.1
  refine ⟨hnoop, ?_, ?_⟩
  · rw [hnoop]
    exact hadm
  · rw [hnoop]
    simp only [verify_user]
    rw [hadm]
    exact hpw

theorem delete_admin_noop_witness :
    delete_user [("admin", hashpw "root" 0)] "admin" =
        ([("admin", hashpw "root" 0)], false) ∧
      (delete_user [("admin", hashpw "root" 0)] "admin").1.lookup "admin" =
        some (hashpw "root" 0) ∧
      verify_user (delete_user [("admin", hashpw "root" 0)] "admin").1
        "admin" "root" = true :=
  delete_admin_noop [("admin", hashpw "root" 0)] "root" (hashpw "root" 0)
    (by decide) (by decide)

/-- One row of the `upload_history` worksheet (columns: username,
filename, timestamp). -/
structure UploadEntry where
  username : String
  filename : String
  timestamp : String
deriving DecidableEq, Repr

/-- The `upload_history` worksheet: rows below the header, top to
bottom. -/
abbrev HistorySheet := List UploadEntry

/-- `save_upload_history` (app_final_google_sheets_secrets.py:106-111):
appends one row `[username, filename, timestamp]` at the bottom of the
sheet; the timestamp is passed explicitly instead of read from the
clock. -/
def save_upload_history (sheet : HistorySheet)
    (username filename timestamp : String) : HistorySheet :=
  sheet ++ [⟨username, filename, timestamp⟩]

/-- `get_upload_history` (app_final_google_sheets_secrets.py:113-119), on
the outcome of the remote read: all records in sheet order on success,
`[]` after `st.error` on an `APIError`. -/
def get_upload_history (r : Except ApiError HistorySheet) : HistorySheet :=
  match r with
  | .ok rows => rows
  | .error _ => []

/-- C8: after a successful `record_upload`, `list_uploads` returns the
previous entries unchanged and in order, followed by one new last entry
carrying the given username and filename. -/
theorem record_upload_appends_last (sheet : HistorySheet)
    (username filename timestamp : String) :
    get_upload_history
        (Except.ok (save_upload_history sheet username filename timestamp)) =
      get_upload_history (Except.ok sheet) ++
        [⟨username, filename, timestamp⟩] ∧
    (get_upload_history
        (Except.ok
          (save_upload_history sheet username filename timestamp))).getLast?
      = some ⟨username, filename, timestamp⟩ ∧
    (get_upload_history
        (Except.ok
          (save_upload_history sheet username filename timestamp))).take
        sheet.length = get_upload_history (Except.ok sheet) := by
  refine ⟨rfl, ?_, ?_⟩
  · simp [get_upload_history, save_upload_history]
  · simp [get_upload_history, save_upload_history, List.take_left]

/-- The in-memory state of one process run of the sheets revision: the
two remote worksheets together with the `@st.cache_data` memo of
`get_users` and of `get_upload_history` (`None` while the function has
not been called yet in this run). -/
structure RunState where
  users_store : UserSheet
  history_store : HistorySheet
  users_cache : Option UserSheet
  history_cache : Option HistorySheet
deriving DecidableEq, Repr

/-- `get_users` as executed in a run: `@st.cache_data` returns the memo
when present and otherwise performs the remote read (here: the success
path) and memoizes its result. -/
def cached_get_users (s : RunState) : UserSheet × RunState :=
  match s.users_cache with
  | some v => (v, s)
  | none => (s.users_store, { s with users_cache := some s.users_store })

/-- `find_user` as executed in a run: a lookup over `cached_get_users`.
(app_final_google_sheets_secrets.py:79-84). -/
def cached_find_user (s : RunState) (username : String) :
    Option UserRow × RunState :=
  ((cached_get_users s).1.find? (fun user => user.username == username),
    (cached_get_users s).2)

/-- `add_user` as executed in a run: appends to the remote `users`
worksheet; no code path clears the `st.cache_data` memo
(app_final_google_sheets_secrets.py:86-98). -/
def cached_add_user (s : RunState) (username password : String)
    (salt : Nat) : RunState × Bool :=
  ({ s with users_store := (add_user s.users_store username password salt).1 },
    (add_user s.users_store username password salt).2)

/-- `save_upload_history` as executed in a run: appends to the remote
`upload_history` worksheet; the memo is not cleared
(app_final_google_sheets_secrets.py:106-111). -/
def cached_save_upload_history (s : RunState)
    (username filename timestamp : String) : RunState :=
  { s with history_store :=
      save_upload_history s.history_store username filename timestamp }

/-- `get_upload_history` as executed in a run: memo when present,
otherwise the remote read (success path), memoized
(app_final_google_sheets_secrets.py:113-119). -/
def cached_get_upload_history (s : RunState) : HistorySheet × RunState :=
  match s.history_cache with
  | some v => (v, s)
  | none =>
    (s.history_store, { s with history_cache := some s.history_store })

/-- C9: once the memo of a run is populated, a successful `add_user` and
`save_upload_history` reach the remote stores but do not invalidate it, so
a later `find_user` still returns `None` for the user just added and
`get_upload_history` still returns the pre-write snapshot. -/
theorem cache_not_invalidated_by_writes (store : UserSheet)
    (hist : HistorySheet) (u p f t : String) (salt : Nat)
    (hu : u ≠ "") (hp : p ≠ "")
    (habs : find_user store u = none) :
    (cached_add_user ⟨store, hist, some store, some hist⟩ u p salt).2 =
      true ∧
    (cached_find_user
        (cached_save_upload_history
          (cached_add_user ⟨store, hist, some store, some hist⟩ u p
            salt).1 u f t) u).1 = none ∧
    (cached_get_upload_history
        (cached_save_upload_history
          (cached_add_user ⟨store, hist, some store, some hist⟩ u p
            salt).1 u f t)).1 = hist ∧
    find_user
        (cached_save_upload_history
          (cached_add_user ⟨store, hist, some store, some hist⟩ u p
            salt).1 u f t).users_store u = some ⟨u, hashpw p salt⟩ ∧
    (cached_save_upload_history
        (cached_add_user ⟨store, hist, some store, some hist⟩ u p
          salt).1 u f t).history_store = hist ++ [⟨u, f, t⟩] := by
  have hadd : add_user store u p salt =
      (store ++ [⟨u, hashpw p salt⟩], true) := by
    simp [add_user, hu, hp]
  refine ⟨?_, ?_, ?_, ?_, ?_⟩
  · simp [cached_add_user, hadd]
  · simp only [cached_add_user, cached_save_upload_history,
      cached_find_user, cached_get_users]
    exact habs
  · simp [cached_add_user, cached_save_upload_history,
      cached_get_upload_history]
  · simp only [cached_add_user, cached_save_upload_history, hadd]
    rw [find_user_append_of_none _ _ _ habs, find_user_cons]
    simp
  · simp [cached_add_user, cached_save_upload_history,
      save_upload_history]

theorem cache_not_invalidated_by_writes_witness :
    (cached_add_user ⟨[], [], some [], some []⟩ "alice" "pw" 0).2 =
      true ∧
    (cached_find_user
        (cached_save_upload_history
          (cached_add_user ⟨[], [], some [], some []⟩ "alice" "pw"
            0).1 "alice" "d.csv" "2025-01-01 00:00:00") "alice").1 =
      none ∧
    (cached_get_upload_history
        (cached_save_upload_history
          (cached_add_user ⟨[], [], some [], some []⟩ "alice" "pw"
            0).1 "alice" "d.csv" "2025-01-01 00:00:00")).1 = [] ∧
    find_user
        (cached_save_upload_history
          (cached_add_user ⟨[], [], some [], some []⟩ "alice" "pw"
            0).1 "alice" "d.csv" "2025-01-01 00:00:00").users_store
        "alice" = some ⟨"alice", hashpw "pw" 0⟩ ∧
    (cached_save_upload_history
        (cached_add_user ⟨[], [], some [], some []⟩ "alice" "pw"
          0).1 "alice" "d.csv" "2025-01-01 00:00:00").history_store =
      [] ++ [⟨"alice", "d.csv", "2025-01-01 00:00:00"⟩] :=
  cache_not_invalidated_by_writes [] [] "alice" "pw" "d.csv"
    "2025-01-01 00:00:00" 0 (by decide) (by decide) rfl

/-- The Streamlit session state the login flow uses:
`st.session_state.logged_in` and `st.session_state.username`. -/
structure SessionState where
  logged_in : Bool
  username : String
deriving DecidableEq, Repr

/-- Logout handler of the sheets revision
(app_final_google_sheets_secrets.py:250-252): sets
`st.session_state.logged_in = False` and reruns; the `username` field is
not touched. -/
def logout_sheets (s : SessionState) : SessionState :=
  { s with logged_in := false }

/-- Logout handler of app.py (app.py:119-122): sets
`st.session_state.logged_in = False` and `st.session_state.username = ""`
before rerunning. -/
def logout_app (_s : SessionState) : SessionState :=
  ⟨false, ""⟩

/-- C10: the sheets revision's logout clears only the `logged_in` flag
and leaves `username` holding the previous user's name, while app.py's
logout clears both fields. -/
theorem logout_sheets_keeps_username (s : SessionState) :
    (logout_sheets s).logged_in = false ∧
      (logout_sheets s).username = s.username ∧
      (logout_app s).logged_in = false ∧
      (logout_app s).username = "" :=
  ⟨rfl, rfl, rfl, rfl⟩
